import Mathlib

/-!
# Verification of the skin-advantage calculator

Shallow embedding of the calculator component (`src/unnamed/part_000`).
JavaScript double-precision numbers are idealised as real numbers; a value
that is `NaN` — such as `parseFloat` applied to an unparseable string — is
modelled as `none : Option ℝ`, a finite value as `some v`.  The React
component's handlers are modelled as pure functions on an explicit
application state consisting of the form state, the displayed result and
the history list.
-/

noncomputable section

/-- `clamp(x, a, b) = Math.max(a, Math.min(b, x))` (line 9 of the source). -/
def clamp (x a b : ℝ) : ℝ := max a (min b x)

/-- `interpret` (lines 19–24): maps a score to its textual interpretation. -/
def interpret (s : ℝ) : String :=
  if s > 0.40 then "Compra forte"
  else if s > 0.15 then "Considerar"
  else if s ≥ -0.15 then "Neutro"
  else "Evitar"

/-- JavaScript `parseFloat(field) || d`: both `NaN` (here `none`) and the
falsy number `0` are replaced by the default `d`; any other parsed value is
kept as-is. -/
def orDefault (x : Option ℝ) (d : ℝ) : ℝ :=
  match x with
  | none => d
  | some v => if v = 0 then d else v

/-- The form state (source lines 31–43).  The source stores raw strings; the
numeric fields are embedded by their `parseFloat` image (`none` for a string
that parses to `NaN`).  `floatStr` keeps the verbatim `float` string, which
`handleAddHistory` copies into the history record; `name` is the free-text
label. -/
structure FormState where
  pm : Option ℝ
  pa : Option ℝ
  fee : Option ℝ
  float : Option ℝ
  wp : Option ℝ
  wf : Option ℝ
  alpha : Option ℝ
  cap : Option ℝ
  r : Option ℝ
  liq : Option ℝ
  floatStr : String
  name : String

/-- The result record of `calculate` (source lines 48–56). -/
structure CalculateResult where
  Pm : ℝ
  PaAdj : ℝ
  D : ℝ
  Dc : ℝ
  Q : ℝ
  S : ℝ
  Sfinal : ℝ

/-- Which of the three `alert` validations fired before `calculate`
returned `null` (source lines 138–149). -/
inductive ValidationFailure where
  | invalidFloat
  | invalidAverageCost
  | invalidWeights
deriving DecidableEq

/-- `Math.pow(1 - f, alpha)` from line 155, as real exponentiation. -/
def floatQuality (f alpha : ℝ) : ℝ := (1 - f) ^ alpha

/-- `Number.isFinite(L) ? clamp(L, 0, 1) : 1` from line 157: a non-finite
liquidity defaults to 1, a finite one is clamped to `[0, 1]`. -/
def liquidityFactor (L : Option ℝ) : ℝ :=
  match L with
  | some Lv => clamp Lv 0 1
  | none => 1

/-- The arithmetic block of `calculate` (source lines 151–160), run once the
three validations have passed on the parsed float `f`. -/
def compute (formState : FormState) (f : ℝ) : CalculateResult :=
  let Pm := orDefault formState.pm 0
  let Pa := orDefault formState.pa 0
  let fee := orDefault formState.fee 0
  let wp := orDefault formState.wp 0
  let wf := orDefault formState.wf 0
  let alpha := orDefault formState.alpha 1
  let cap := orDefault formState.cap 1
  let r := orDefault formState.r 1
  let PaAdj := Pa + fee
  let D := (Pm - PaAdj) / Pm
  let Dc := clamp D (-cap) cap
  let Q := floatQuality f alpha
  let S := (wp * Dc + wf * Q) / (wp + wf)
  let Liqu := liquidityFactor formState.liq
  let Sfinal := S * r * Liqu
  ⟨Pm, PaAdj, D, Dc, Q, S, Sfinal⟩

/-- `calculate` (source lines 124–161): parse every field with its default,
run the three validations in order, then compute.  `Except.error` records
which `alert` fired before the source returned `null`.  The source's single
test `!(f >= 0 && f <= 1)` also catches `f = NaN` (every comparison with
`NaN` is false), which here is the `none` branch of the match. -/
def calculate (formState : FormState) : Except ValidationFailure CalculateResult :=
  match formState.float with
  | none => Except.error ValidationFailure.invalidFloat
  | some f =>
    if ¬(0 ≤ f ∧ f ≤ 1) then Except.error ValidationFailure.invalidFloat
    else if orDefault formState.pm 0 ≤ 0 then Except.error ValidationFailure.invalidAverageCost
    else if orDefault formState.wp 0 + orDefault formState.wf 0 ≤ 0 then
      Except.error ValidationFailure.invalidWeights
    else Except.ok (compute formState f)

/-- `initialFormState` (source lines 69–81), each string given with its
`parseFloat` image. -/
def initialFormState : FormState :=
  ⟨some 500, some 400, some 0, some 0.12, some 0.7, some 0.3,
   some 1, some 1, some 1, some 1, "0.12", ""⟩

/-- A history entry (source lines 61–65): the computed result plus a unique
id, the display name and the raw float input string. -/
structure HistoryItem extends CalculateResult where
  id : String
  name : String
  floatValue : String

/-- The component's state: the three `useState` hooks of `App`
(source lines 109–111). -/
structure AppState where
  formState : FormState
  result : Option CalculateResult
  history : List HistoryItem

/-- `handleCalculate` (source lines 166–171): recompute and display the
result; on a validation failure nothing changes. -/
def handleCalculate (s : AppState) : AppState :=
  match (calculate s.formState).toOption with
  | some res => { s with result := some res }
  | none => s

/-- `handleAddHistory` (source lines 176–190).  The generated id
(timestamp plus random suffix) is nondeterministic in the source and is
taken as the parameter `newId`.  `formState.name || '—'` falls back to the
dash exactly when the name is the (falsy) empty string. -/
def handleAddHistory (newId : String) (s : AppState) : AppState :=
  match (calculate s.formState).toOption with
  | some res =>
    let newItem : HistoryItem :=
      ⟨res, newId, if s.formState.name = "" then "—" else s.formState.name,
       s.formState.floatStr⟩
    { s with result := some res, history := newItem :: s.history }
  | none => s

/-- `handleReset` (source lines 195–199): restore the initial form, clear
the displayed result and the whole history. -/
def handleReset (_s : AppState) : AppState :=
  ⟨initialFormState, none, []⟩

/-- `handleInputChange` (source lines 116–119) rewrites one field of the
form state; the field update is abstracted as a function on `FormState`.
Neither the result nor the history is touched. -/
def handleInputChange (update : FormState → FormState) (s : AppState) : AppState :=
  { s with formState := update s.formState }

/-- The result record of Scenario A: the component's initial form values. -/
def scenarioAResult : CalculateResult :=
  ⟨500, 400, 0.2, 0.2, 0.88, 0.404, 0.404⟩

/-- The initial state of the `App` component: initial form, no displayed
result, empty history. -/
def initialAppState : AppState :=
  ⟨initialFormState, none, []⟩

lemma calculate_ok_of_valid (fs : FormState) (f : ℝ)
    (hf : fs.float = some f) (hf0 : 0 ≤ f) (hf1 : f ≤ 1)
    (hPm : 0 < orDefault fs.pm 0)
    (hw : 0 < orDefault fs.wp 0 + orDefault fs.wf 0) :
    calculate fs = Except.ok (compute fs f) := by
  unfold calculate
  rw [hf]
  dsimp only
  rw [if_neg (not_not_intro ⟨hf0, hf1⟩), if_neg (not_le.mpr hPm), if_neg (not_le.mpr hw)]

lemma compute_Sfinal (fs : FormState) (f : ℝ) :
    (compute fs f).Sfinal =
      (compute fs f).S * orDefault fs.r 1 * liquidityFactor fs.liq := rfl

lemma calculate_initial : calculate initialFormState = Except.ok scenarioAResult := by
  have h := calculate_ok_of_valid initialFormState 0.12 rfl (by norm_num) (by norm_num)
    (by norm_num [initialFormState, orDefault]) (by norm_num [initialFormState, orDefault])
  rw [h]
  unfold compute initialFormState scenarioAResult
  simp only [orDefault, liquidityFactor, floatQuality, clamp]
  norm_num [min_def, max_def, Real.rpow_natCast]

/-- Form state whose float field parses to `NaN` (Scenario B / C3 witness). -/
def invalidFloatForm : FormState := { initialFormState with float := none }

/-- Scenario F: the initial form with an unparseable liquidity field. -/
def scenarioFForm : FormState := { initialFormState with liq := none }

/-- Application state whose form would fail validation. -/
def invalidAppState : AppState := ⟨invalidFloatForm, none, []⟩

/-- C1: for every form state whose parsed values satisfy
`averageCost > 0`, `0 ≤ floatValue ≤ 1` and `priceWeight + floatWeight > 0`,
`calculate` returns a `ScoreResult` and never a validation failure. -/
theorem scorer_total_on_valid_inputs (fs : FormState) (f : ℝ)
    (hf : fs.float = some f) (hf0 : 0 ≤ f) (hf1 : f ≤ 1)
    (hPm : 0 < orDefault fs.pm 0)
    (hw : 0 < orDefault fs.wp 0 + orDefault fs.wf 0) :
    ∃ res, calculate fs = Except.ok res :=
  ⟨compute fs f, calculate_ok_of_valid fs f hf hf0 hf1 hPm hw⟩

/-- Witness for C1 at the initial form values. -/
theorem scorer_total_on_valid_inputs_witness :
    ∃ res, calculate initialFormState = Except.ok res :=
  scorer_total_on_valid_inputs initialFormState 0.12 rfl (by norm_num) (by norm_num)
    (by norm_num [initialFormState, orDefault]) (by norm_num [initialFormState, orDefault])

/-- C2: on Scenario A (the initial form values: Pm=500, Pa=400, fee=0,
f=0.12, wp=0.7, wf=0.3, alpha=cap=rarity=liquidity=1) the scorer computes
discount 0.2, clamped discount 0.2, float quality 0.88, raw score 0.404 and
final score 0.404, which strictly exceeds 0.40 and is therefore rendered
as the strong-buy label 'Compra forte'. -/
theorem scenarioA_exact_values :
    calculate initialFormState = Except.ok scenarioAResult ∧
    scenarioAResult.D = 0.2 ∧ scenarioAResult.Dc = 0.2 ∧
    scenarioAResult.Q = 0.88 ∧ scenarioAResult.S = 0.404 ∧
    scenarioAResult.Sfinal = 0.404 ∧
    (0.40 : ℝ) < scenarioAResult.Sfinal ∧
    interpret scenarioAResult.Sfinal = "Compra forte" := by
  refine ⟨calculate_initial, rfl, rfl, rfl, rfl, rfl, by norm_num [scenarioAResult], ?_⟩
  unfold interpret scenarioAResult
  rw [if_pos (by norm_num)]

/-- C3: the three validations run in a fixed order — float range first,
then average cost, then weight sum — the first failing check wins, and a
float that parses to `NaN` is a hard `invalidFloat` failure, never
defaulted. -/
theorem validation_order (fs : FormState) :
    (fs.float = none → calculate fs = Except.error ValidationFailure.invalidFloat) ∧
    (∀ f, fs.float = some f → ¬(0 ≤ f ∧ f ≤ 1) →
      calculate fs = Except.error ValidationFailure.invalidFloat) ∧
    (∀ f, fs.float = some f → 0 ≤ f → f ≤ 1 → orDefault fs.pm 0 ≤ 0 →
      calculate fs = Except.error ValidationFailure.invalidAverageCost) ∧
    (∀ f, fs.float = some f → 0 ≤ f → f ≤ 1 → 0 < orDefault fs.pm 0 →
      orDefault fs.wp 0 + orDefault fs.wf 0 ≤ 0 →
      calculate fs = Except.error ValidationFailure.invalidWeights) := by
  refine ⟨?_, ?_, ?_, ?_⟩
  · intro h
    unfold calculate
    rw [h]
  · intro f hf hbad
    unfold calculate
    rw [hf]
    dsimp only
    rw [if_pos hbad]
  · intro f hf h0 h1 hpm
    unfold calculate
    rw [hf]
    dsimp only
    rw [if_neg (not_not_intro ⟨h0, h1⟩), if_pos hpm]
  · intro f hf h0 h1 hpm hw
    unfold calculate
    rw [hf]
    dsimp only
    rw [if_neg (not_not_intro ⟨h0, h1⟩), if_neg (not_le.mpr hpm), if_pos hw]

/-- Witness for C3: an unparseable float fails with `invalidFloat`. -/
theorem validation_order_witness :
    calculate invalidFloatForm = Except.error ValidationFailure.invalidFloat :=
  (validation_order invalidFloatForm).1 rfl

/-- C4: for every real discount and every cap > 0, the clamped discount
`clamp(discount, -cap, cap)` lies in the closed interval `[-cap, cap]`. -/
theorem clampedDiscount_in_range (D cap : ℝ) (hcap : 0 < cap) :
    -cap ≤ clamp D (-cap) cap ∧ clamp D (-cap) cap ≤ cap := by
  unfold clamp
  exact ⟨le_max_left _ _, max_le (by linarith) (min_le_left _ _)⟩

/-- Witness for C4 at discount 5, cap 1. -/
theorem clampedDiscount_in_range_witness :
    -(1 : ℝ) ≤ clamp 5 (-1) 1 ∧ clamp 5 (-1) 1 ≤ 1 :=
  clampedDiscount_in_range 5 1 (by norm_num)

/-- C5: with alpha in its specified domain alpha > 0, the float quality
`(1 - f) ^ alpha` lies in `(0, 1]` whenever `0 ≤ f < 1`, and equals 0
exactly at `f = 1`. -/
theorem floatQuality_range (f alpha : ℝ) (halpha : 0 < alpha) :
    (0 ≤ f → f < 1 → 0 < floatQuality f alpha ∧ floatQuality f alpha ≤ 1) ∧
    (f = 1 → floatQuality f alpha = 0) := by
  constructor
  · intro hf0 hf1
    unfold floatQuality
    exact ⟨Real.rpow_pos_of_pos (by linarith) alpha,
      Real.rpow_le_one (by linarith) (by linarith) halpha.le⟩
  · intro hf
    unfold floatQuality
    rw [hf, sub_self]
    exact Real.zero_rpow (ne_of_gt halpha)

/-- Witness for C5 at f = 0.5, alpha = 1. -/
theorem floatQuality_range_witness :
    0 < floatQuality 0.5 1 ∧ floatQuality 0.5 1 ≤ 1 :=
  (floatQuality_range 0.5 1 (by norm_num)).1 (by norm_num) (by norm_num)

/-- C6: `interpret` is total and partitions the reals into exactly the four
labelled ranges: score > 0.40 is strong buy, 0.15 < score ≤ 0.40 is
consider, −0.15 ≤ score ≤ 0.15 is neutral, score < −0.15 is avoid; 0.40 and
0.15 are exclusive lower bounds and −0.15 an inclusive one. -/
theorem interpret_partition (s : ℝ) :
    (interpret s = "Compra forte" ↔ 0.40 < s) ∧
    (interpret s = "Considerar" ↔ 0.15 < s ∧ s ≤ 0.40) ∧
    (interpret s = "Neutro" ↔ -0.15 ≤ s ∧ s ≤ 0.15) ∧
    (interpret s = "Evitar" ↔ s < -0.15) := by
  unfold interpret
  split_ifs with h1 h2 h3 <;>
    refine ⟨?_, ?_, ?_, ?_⟩ <;>
      simp_all <;>
        first
          | linarith
          | (intro h; linarith)

/-- Witness for C6 at score 0.5. -/
theorem interpret_partition_witness : interpret 0.5 = "Compra forte" :=
  (interpret_partition 0.5).1.mpr (by norm_num)

/-- C7: a liquidity field that parses to a non-finite value defaults to
factor 1 without raising a validation failure, a finite one is clamped to
`[0, 1]`, and in both cases the final score is the raw score times rarity
times the liquidity factor. -/
theorem liquidity_default_and_clamp (fs : FormState) (f : ℝ)
    (hf : fs.float = some f) (hf0 : 0 ≤ f) (hf1 : f ≤ 1)
    (hPm : 0 < orDefault fs.pm 0)
    (hw : 0 < orDefault fs.wp 0 + orDefault fs.wf 0) :
    ∃ res, calculate fs = Except.ok res ∧
      res.Sfinal = res.S * orDefault fs.r 1 * liquidityFactor fs.liq ∧
      (fs.liq = none → liquidityFactor fs.liq = 1) ∧
      (∀ L, fs.liq = some L → liquidityFactor fs.liq = clamp L 0 1) := by
  refine ⟨compute fs f, calculate_ok_of_valid fs f hf hf0 hf1 hPm hw,
    compute_Sfinal fs f, ?_, ?_⟩
  · intro h
    rw [h]
    rfl
  · intro L h
    rw [h]
    rfl

/-- Witness for C7 on Scenario F (unparseable liquidity). -/
theorem liquidity_default_and_clamp_witness :
    ∃ res, calculate scenarioFForm = Except.ok res ∧
      res.Sfinal = res.S * orDefault scenarioFForm.r 1 * liquidityFactor scenarioFForm.liq ∧
      (scenarioFForm.liq = none → liquidityFactor scenarioFForm.liq = 1) ∧
      (∀ L, scenarioFForm.liq = some L → liquidityFactor scenarioFForm.liq = clamp L 0 1) :=
  liquidity_default_and_clamp scenarioFForm 0.12 rfl (by norm_num) (by norm_num)
    (by norm_num [scenarioFForm, initialFormState, orDefault])
    (by norm_num [scenarioFForm, initialFormState, orDefault])

/-- C8: committing a result prepends a fresh record carrying the display
name (dash when empty) and the raw float string — so the newest record is
first and older records keep their contents and order — reset empties the
history, and neither a plain recompute nor a form edit touches it. -/
theorem history_prepend_contract (newId : String) (s : AppState) :
    (∀ res, calculate s.formState = Except.ok res →
      (handleAddHistory newId s).history =
        (⟨res, newId, if s.formState.name = "" then "—" else s.formState.name,
          s.formState.floatStr⟩ : HistoryItem) :: s.history) ∧
    (handleReset s).history = [] ∧
    (handleCalculate s).history = s.history ∧
    (∀ update, (handleInputChange update s).history = s.history) := by
  refine ⟨?_, rfl, ?_, fun _ => rfl⟩
  · intro res h
    unfold handleAddHistory
    rw [h]
    rfl
  · unfold handleCalculate
    cases (calculate s.formState).toOption <;> rfl

/-- Witness for C8: one commit on the initial state. -/
theorem history_prepend_contract_witness :
    (handleAddHistory "id0" initialAppState).history =
      (⟨scenarioAResult, "id0",
        if initialAppState.formState.name = "" then "—" else initialAppState.formState.name,
        initialAppState.formState.floatStr⟩ : HistoryItem) :: initialAppState.history :=
  (history_prepend_contract "id0" initialAppState).1 scenarioAResult calculate_initial

lemma calculate_congr (fs₁ fs₂ : FormState)
    (hfloat : fs₁.float = fs₂.float)
    (hpm : fs₁.pm = fs₂.pm) (hwp : fs₁.wp = fs₂.wp) (hwf : fs₁.wf = fs₂.wf)
    (hcomp : ∀ f, compute fs₁ f = compute fs₂ f) :
    calculate fs₁ = calculate fs₂ := by
  unfold calculate
  simp only [hfloat, hpm, hwp, hwf, hcomp]

/-- C9: for the alpha, cap and rarity fields a parsed value of exactly 0 is
replaced by the default 1 exactly like an unparseable value (JavaScript
falsy-or), while a negative parsed value is used as-is, with no defaulting
and no validation failure. -/
theorem falsy_zero_defaults (fs : FormState) (v : ℝ) (hv : v < 0) :
    orDefault (some 0) 1 = 1 ∧ orDefault none 1 = 1 ∧ orDefault (some v) 1 = v ∧
    calculate { fs with alpha := some 0 } = calculate { fs with alpha := none } ∧
    calculate { fs with cap := some 0 } = calculate { fs with cap := none } ∧
    calculate { fs with r := some 0 } = calculate { fs with r := none } ∧
    (∀ f, fs.float = some f → 0 ≤ f → f ≤ 1 → 0 < orDefault fs.pm 0 →
      0 < orDefault fs.wp 0 + orDefault fs.wf 0 →
      ∃ res, calculate { fs with alpha := some v, cap := some v, r := some v } =
        Except.ok res) := by
  refine ⟨by simp [orDefault], rfl, by simp [orDefault, hv.ne], ?_, ?_, ?_, ?_⟩
  · refine calculate_congr _ _ rfl rfl rfl rfl (fun f => ?_)
    unfold compute
    simp [orDefault]
  · refine calculate_congr _ _ rfl rfl rfl rfl (fun f => ?_)
    unfold compute
    simp [orDefault]
  · refine calculate_congr _ _ rfl rfl rfl rfl (fun f => ?_)
    unfold compute
    simp [orDefault]
  · intro f hf h0 h1 hpm hw
    exact ⟨_, calculate_ok_of_valid _ f hf h0 h1 hpm hw⟩

/-- Witness for C9: negative alpha, cap and rarity still yield a result. -/
theorem falsy_zero_defaults_witness :
    ∃ res, calculate { initialFormState with
      alpha := some (-1 : ℝ), cap := some (-1 : ℝ), r := some (-1 : ℝ) } =
      Except.ok res :=
  (falsy_zero_defaults initialFormState (-1) (by norm_num)).2.2.2.2.2.2 0.12 rfl
    (by norm_num) (by norm_num)
    (by norm_num [initialFormState, orDefault])
    (by norm_num [initialFormState, orDefault])

/-- C10: when validation fails, both the compute action and the
commit-to-history action leave the whole application state — in particular
the displayed result and the history — exactly as they were. -/
theorem failure_leaves_state_unchanged (s : AppState) (e : ValidationFailure)
    (h : calculate s.formState = Except.error e) :
    handleCalculate s = s ∧ ∀ newId, handleAddHistory newId s = s := by
  constructor
  · unfold handleCalculate
    rw [h]
    rfl
  · intro newId
    unfold handleAddHistory
    rw [h]
    rfl

/-- Witness for C10 on a state whose float field parses to `NaN`. -/
theorem failure_leaves_state_unchanged_witness :
    handleCalculate invalidAppState = invalidAppState :=
  (failure_leaves_state_unchanged invalidAppState ValidationFailure.invalidFloat rfl).1

end
